import Mathlib

/-
Verification of the rozklad_new schedule bot core against its design notes.

The Python sources (data_manager.py, models.py, schedule_logic.py,
notifications.py, handlers/utils.py) are shallowly embedded below.  Dumped
pydantic models (`model_dump()`) are association lists from field-name strings
to `PyValue`; datetime values are embedded as integer timestamps; calendar
dates are embedded as integer day numbers, so Python's
`(a.date() - b.date()).days` is plain integer subtraction.
-/

namespace Rozklad

/-- A Python value as it appears in a dumped model dictionary.
datetimes are carried as integer timestamps. -/
inductive PyValue where
  | none : PyValue
  | bool (b : Bool) : PyValue
  | str (s : String) : PyValue
  | int (n : Int) : PyValue
  deriving DecidableEq

/-- First-match lookup in an association list (Python dict `get` / `[]`). -/
def alistGet? {α : Type} (d : List (String × α)) (k : String) : Option α :=
  match d with
  | [] => Option.none
  | (k', v) :: rest => if k' = k then Option.some v else alistGet? rest k

/-- Python dict assignment: overwrite the existing key in place, else append. -/
def alistSet {α : Type} (d : List (String × α)) (k : String) (v : α) :
    List (String × α) :=
  match d with
  | [] => [(k, v)]
  | (k', v') :: rest =>
      if k' = k then (k, v) :: rest else (k', v') :: alistSet rest k v

/-- Python `dict.get(key, default)`. -/
def dictGet (d : List (String × PyValue)) (k : String) (dflt : PyValue) :
    PyValue :=
  (alistGet? d k).getD dflt

/-- Python `key in dict`. -/
def dictContains (d : List (String × PyValue)) (k : String) : Bool :=
  (alistGet? d k).isSome

/-- Python `dict.update(kwargs)`: fold the keyword pairs into the dict. -/
def dictUpdate (d : List (String × PyValue)) (kw : List (String × PyValue)) :
    List (String × PyValue) :=
  kw.foldl (fun acc p => alistSet acc p.1 p.2) d

/-- Python truthiness of the values our dictionaries hold. -/
def pyTruthy : PyValue → Bool
  | PyValue.none => false
  | PyValue.bool b => b
  | PyValue.str s => !s.data.isEmpty
  | PyValue.int n => n != 0

/-- Python `==` on the values our dictionaries hold (no cross-type equalities
are exercised by the embedded call sites). -/
def pyEq : PyValue → PyValue → Bool
  | PyValue.none, PyValue.none => true
  | PyValue.bool a, PyValue.bool b => a == b
  | PyValue.str a, PyValue.str b => a == b
  | PyValue.int a, PyValue.int b => a == b
  | _, _ => false

/-- Python truthiness of an optional string (None and the empty string are
falsy). -/
def pyTruthyStrOpt : Option String → Bool
  | Option.none => false
  | Option.some s => !s.data.isEmpty

/-- Strip leading and trailing whitespace from a character list. -/
def stripList (cs : List Char) : List Char :=
  ((cs.dropWhile Char.isWhitespace).reverse.dropWhile Char.isWhitespace).reverse

/-- Python `str.strip()` / pydantic `str_strip_whitespace`. -/
def pyStrip (s : String) : String :=
  String.mk (stripList s.data)

/-- Python `str.split(sep)` for a single-character separator, on character
lists. -/
def splitChar (c : Char) : List Char → List (List Char)
  | [] => [[]]
  | x :: xs =>
      match splitChar c xs with
      | [] => [[]]
      | y :: ys => if x = c then [] :: y :: ys else (x :: y) :: ys

/-- Decimal value of a digit list. -/
def digitsVal (cs : List Char) : Nat :=
  cs.foldl (fun a c => a * 10 + (c.toNat - 48)) 0

/-- Python `int(...)` restricted to plain decimal digit strings; everything the
embedded call sites can pass that is not such a string raises ValueError, so it
is sent to `none` (signed forms are rejected by the pattern layer first and
also land in the same rejected outcome). -/
def pyIntOfDigits? (cs : List Char) : Option Int :=
  if !cs.isEmpty && cs.all Char.isDigit then
    Option.some (Int.ofNat (digitsVal cs))
  else Option.none

/-- The hour alternative of the pydantic Field pattern on time strings:
regex group `([01]?[0-9]|2[0-3])`. -/
def hourPatOk : List Char → Bool
  | [c] => c.isDigit
  | [c1, c2] =>
      (((c1 = '0') || (c1 = '1')) && c2.isDigit) ||
      ((c1 = '2') && (('0' ≤ c2) && (c2 ≤ '3')))
  | _ => false

/-- The minute part of the pydantic Field pattern: regex `[0-5][0-9]`. -/
def minutePatOk : List Char → Bool
  | [c1, c2] => (('0' ≤ c1) && (c1 ≤ '5')) && c2.isDigit
  | _ => false

/-- The anchored pydantic Field pattern on `reminder_time` /
`next_lesson_time` (models.py line 19): one colon, hour and minute groups. -/
def timePatternOk (s : String) : Bool :=
  match splitChar ':' s.data with
  | [h, m] => hourPatOk h && minutePatOk m
  | _ => false

/-- `UserModel.validate_time_format` (models.py lines 26-38):
`hour, minute = map(int, v.split(':'))` then a range check; any unpack or
parse failure raises and is a validation failure. -/
def validate_time_format (s : String) : Bool :=
  match splitChar ':' s.data with
  | [h, m] =>
      match pyIntOfDigits? h, pyIntOfDigits? m with
      | Option.some hv, Option.some mv =>
          decide (0 ≤ hv ∧ hv ≤ 23 ∧ 0 ≤ mv ∧ mv ≤ 59)
      | _, _ => false
  | _ => false

/-- `models.UserModel`: the declared fields with their declared defaults.
There is no `daily_reminder`, `lesson_notifications` or `active` field. -/
structure UserModel where
  group : Option String := Option.none
  reminder_time : Option String := Option.none
  reminder_enabled : Bool := true
  next_lesson_notification : Bool := true
  next_lesson_time : Option String := Option.none
  registration_date : Option Int := Option.none
  last_activity : Option Int := Option.none
  deriving DecidableEq

/-- Embed an optional string as a dumped value. -/
def optStrVal : Option String → PyValue
  | Option.none => PyValue.none
  | Option.some s => PyValue.str s

/-- Embed an optional timestamp as a dumped value. -/
def optIntVal : Option Int → PyValue
  | Option.none => PyValue.none
  | Option.some n => PyValue.int n

/-- `UserModel.model_dump()`: a dict holding exactly the declared fields. -/
def UserModel.dump (u : UserModel) : List (String × PyValue) :=
  [ ("group", optStrVal u.group),
    ("reminder_time", optStrVal u.reminder_time),
    ("reminder_enabled", PyValue.bool u.reminder_enabled),
    ("next_lesson_notification", PyValue.bool u.next_lesson_notification),
    ("next_lesson_time", optStrVal u.next_lesson_time),
    ("registration_date", optIntVal u.registration_date),
    ("last_activity", optIntVal u.last_activity) ]

/-- Validate an optional-string field under `str_strip_whitespace`. -/
def parseOptStrField : Option PyValue → Except String (Option String)
  | Option.none => Except.ok Option.none
  | Option.some PyValue.none => Except.ok Option.none
  | Option.some (PyValue.str s) => Except.ok (Option.some (pyStrip s))
  | Option.some _ => Except.error "ValidationError"

/-- Validate a time field: stripping, then the Field pattern, then the
`validate_time_format` field validator (pydantic runs the after-validator
only once the pattern constraint has passed). -/
def parseTimeField : Option PyValue → Except String (Option String)
  | Option.none => Except.ok Option.none
  | Option.some PyValue.none => Except.ok Option.none
  | Option.some (PyValue.str s) =>
      let s := pyStrip s
      if timePatternOk s && validate_time_format s then
        Except.ok (Option.some s)
      else Except.error "ValidationError"
  | Option.some _ => Except.error "ValidationError"

/-- Validate a boolean field with its declared default. -/
def parseBoolField (dflt : Bool) : Option PyValue → Except String Bool
  | Option.none => Except.ok dflt
  | Option.some (PyValue.bool b) => Except.ok b
  | Option.some _ => Except.error "ValidationError"

/-- Validate an optional datetime field (timestamps). -/
def parseDtField : Option PyValue → Except String (Option Int)
  | Option.none => Except.ok Option.none
  | Option.some PyValue.none => Except.ok Option.none
  | Option.some (PyValue.int t) => Except.ok (Option.some t)
  | Option.some _ => Except.error "ValidationError"

/-- `UserModel.model_validate`: reads exactly the declared fields; unknown
keys are ignored (pydantic's default extra-ignore behaviour). -/
def UserModel.model_validate (d : List (String × PyValue)) :
    Except String UserModel :=
  match parseOptStrField (alistGet? d "group"),
        parseTimeField (alistGet? d "reminder_time"),
        parseBoolField true (alistGet? d "reminder_enabled"),
        parseBoolField true (alistGet? d "next_lesson_notification"),
        parseTimeField (alistGet? d "next_lesson_time"),
        parseDtField (alistGet? d "registration_date"),
        parseDtField (alistGet? d "last_activity") with
  | Except.ok g, Except.ok rt, Except.ok re, Except.ok nl, Except.ok nt,
      Except.ok rd, Except.ok la =>
      Except.ok ⟨g, rt, re, nl, nt, rd, la⟩
  | _, _, _, _, _, _, _ => Except.error "ValidationError"

/-- `models.GroupChatModel`: the declared fields with their defaults.  There
is no `pinned_schedule_message_id` field. -/
structure GroupChatModel where
  default_group : Option String := Option.none
  enabled : Bool := true
  last_schedule_sent : Option Int := Option.none
  deriving DecidableEq

/-- `GroupChatModel.model_dump()`: a dict holding exactly the declared
fields. -/
def GroupChatModel.dump (c : GroupChatModel) : List (String × PyValue) :=
  [ ("default_group", optStrVal c.default_group),
    ("enabled", PyValue.bool c.enabled),
    ("last_schedule_sent", optIntVal c.last_schedule_sent) ]

/-- Validate an optional-string field without stripping (GroupChatModel has no
`str_strip_whitespace` configuration). -/
def parsePlainOptStrField : Option PyValue → Except String (Option String)
  | Option.none => Except.ok Option.none
  | Option.some PyValue.none => Except.ok Option.none
  | Option.some (PyValue.str s) => Except.ok (Option.some s)
  | Option.some _ => Except.error "ValidationError"

/-- `GroupChatModel.model_validate`: reads exactly the declared fields;
unknown keys are ignored. -/
def GroupChatModel.model_validate (d : List (String × PyValue)) :
    Except String GroupChatModel :=
  match parsePlainOptStrField (alistGet? d "default_group"),
        parseBoolField true (alistGet? d "enabled"),
        parseDtField (alistGet? d "last_schedule_sent") with
  | Except.ok g, Except.ok e, Except.ok t => Except.ok ⟨g, e, t⟩
  | _, _, _ => Except.error "ValidationError"

/-- `models.LessonModel`. -/
structure LessonModel where
  pair : Nat
  name : String
  teacher : Option String := Option.none
  room : Option String := Option.none
  weeks : List Nat
  deriving DecidableEq

/-- `models.GroupScheduleModel`. -/
structure GroupScheduleModel where
  schedule : List (String × List LessonModel) := []
  deriving DecidableEq

/-- `models.ScheduleDataModel`. -/
structure ScheduleDataModel where
  startDate : Option String := Option.none
  groups : List (String × GroupScheduleModel) := []
  deriving DecidableEq

/-- `DataManager.get_day_lessons` (data_manager.py lines 222-228): look the
group up, then the day up in its schedule, defaulting to the empty list. -/
def dm_get_day_lessons (sd : ScheduleDataModel) (group day : String) :
    List LessonModel :=
  match alistGet? sd.groups group with
  | Option.none => []
  | Option.some gs => (alistGet? gs.schedule day).getD []

/-- `ScheduleService.get_day_lessons` (schedule_logic.py lines 108-143) with
an explicit week (the `week is None` branch substitutes the current week
before this point) and the default `sort_by_pair=True`.  Python's stable
`list.sort(key=pair)` is embedded as a stable insertion sort on the same
key. -/
def get_day_lessons (sd : ScheduleDataModel) (group day : String)
    (week : Nat) : List LessonModel :=
  let lessons := dm_get_day_lessons sd group day
  let filtered := lessons.filter (fun l => l.weeks.contains week)
  filtered.insertionSort (fun a b => a.pair ≤ b.pair)

/-- `ScheduleService.get_current_week` (schedule_logic.py lines 30-64): dates
are integer day numbers, `//` is floor division and `%` a nonnegative
remainder, exactly Python's semantics on a positive modulus. -/
def get_current_week (schedule_start_day : Option Int) (target_day : Int) :
    Int :=
  match schedule_start_day with
  | Option.none => 1
  | Option.some s => ((target_day - s).fdiv 7) % 2 + 1

/-- `DataManager.get_user` (data_manager.py lines 161-168): a plain lookup,
None when absent. -/
def get_user (users : List (String × UserModel)) (user_id : String) :
    Option UserModel :=
  alistGet? users user_id

/-- `DataManager.get_group_chat` (data_manager.py lines 231-233): lookup with
a default-constructed model when absent. -/
def get_group_chat (chats : List (String × GroupChatModel))
    (chat_id : String) : GroupChatModel :=
  (alistGet? chats chat_id).getD {}

/-- `ScheduleService.get_user_group` (schedule_logic.py lines 78-106).  The
chat-level default group takes priority; otherwise `user = get_user(...)`
followed by `user.group` dereferences None for an unknown user id, which in
Python raises AttributeError. -/
def get_user_group (users : List (String × UserModel))
    (chats : List (String × GroupChatModel)) (user_id : String)
    (chat_id : Option String) : Except String (Option String) :=
  let personal : Except String (Option String) :=
    match get_user users user_id with
    | Option.none => Except.error "AttributeError"
    | Option.some u =>
        if pyTruthyStrOpt u.group then Except.ok u.group
        else Except.ok Option.none
  match chat_id with
  | Option.some cid =>
      let gc := get_group_chat chats cid
      if pyTruthyStrOpt gc.default_group then Except.ok gc.default_group
      else personal
  | Option.none => personal

/-- The users collection: the in-memory dict and the durable file contents
(the file stores the serialized models; serialization is injective, so the
file is kept as models as well). -/
structure UsersState where
  mem : List (String × UserModel)
  file : List (String × UserModel)
  deriving DecidableEq

/-- The merged dict built inside `DataManager.update_user` before validation
(data_manager.py lines 182-189): dump the current (or default) model, merge
the keyword fields in, then stamp `last_activity` with the current time. -/
def merged_user_update (st : UsersState) (user_id : String)
    (kwargs : List (String × PyValue)) (now : Int) :
    List (String × PyValue) :=
  let current := (get_user st.mem user_id).getD {}
  alistSet (dictUpdate current.dump kwargs) "last_activity" (PyValue.int now)

/-- `DataManager.update_user` (data_manager.py lines 170-196): validate the
merged dict; on success store the model and save (the JSON write itself is
modelled as succeeding); on ValidationError return False with nothing
changed. -/
def update_user (st : UsersState) (user_id : String)
    (kwargs : List (String × PyValue)) (now : Int) : Bool × UsersState :=
  match UserModel.model_validate (merged_user_update st user_id kwargs now) with
  | Except.ok u =>
      let mem := alistSet st.mem user_id u
      (true, ⟨mem, mem⟩)
  | Except.error _ => (false, st)

/-- `DataManager.update_group_chat` (data_manager.py lines 235-247), keyword
semantics: merge into the current (or default) binding's dump, validate,
store on success. -/
def update_group_chat (chats : List (String × GroupChatModel))
    (chat_id : String) (kwargs : List (String × PyValue)) :
    Bool × List (String × GroupChatModel) :=
  match GroupChatModel.model_validate
      (dictUpdate (get_group_chat chats chat_id).dump kwargs) with
  | Except.ok c => (true, alistSet chats chat_id c)
  | Except.error _ => (false, chats)

/-- `DataManager.get_all_users_data` (data_manager.py lines 258-263): dump
every stored user model. -/
def get_all_users_data (users : List (String × UserModel)) :
    List (String × List (String × PyValue)) :=
  users.map (fun p => (p.1, p.2.dump))

/-- The selection condition of the dict comprehension in
`NotificationService._get_users_for_daily_reminder` (notifications.py lines
119-128), over one dumped user. -/
def daily_reminder_filter (current_time : String)
    (user_data : List (String × PyValue)) : Bool :=
  pyTruthy (dictGet user_data "daily_reminder" (PyValue.bool false)) &&
  pyEq (dictGet user_data "reminder_time" PyValue.none)
    (PyValue.str current_time) &&
  pyTruthy (dictGet user_data "group" PyValue.none) &&
  pyTruthy (dictGet user_data "active" (PyValue.bool true))

/-- `NotificationService._get_users_for_daily_reminder` (notifications.py
lines 107-128): filter all dumped users by the selection condition. -/
def get_users_for_daily_reminder (users : List (String × UserModel))
    (current_time : String) : List (String × List (String × PyValue)) :=
  (get_all_users_data users).filter
    (fun p => daily_reminder_filter current_time p.2)

/-- The selection condition of `_send_personal_next_lesson_notifications`
(notifications.py lines 415-423), over one dumped user. -/
def next_lesson_filter (user_data : List (String × PyValue)) : Bool :=
  pyTruthy (dictGet user_data "lesson_notifications" (PyValue.bool true)) &&
  pyTruthy (dictGet user_data "group" PyValue.none) &&
  pyTruthy (dictGet user_data "active" (PyValue.bool true))

/-- Store/save effect of `_send_no_lessons_message` (notifications.py lines
311-314): `chat_info` is one dumped binding out of `get_all_group_chats`; the
`del` mutates only this dumped copy, and the returned flag records whether
the guarded save call was reached at all. -/
def send_no_lessons_store_effect (chat_info : List (String × PyValue)) :
    List (String × PyValue) × Bool :=
  if dictContains chat_info "pinned_schedule_message_id" then
    (chat_info.filter (fun p => p.1 ≠ "pinned_schedule_message_id"), true)
  else (chat_info, false)

/-- The persistence step of `_send_schedule_message` (notifications.py lines
359-361) under the charitable keyword reading
`update_group_chat(chat_id, **chat_info)`; the actual call passes the dict
positionally into a keywords-only parameter and raises TypeError, so in the
source not even this step runs. -/
def send_schedule_message_persist (chats : List (String × GroupChatModel))
    (chat_id : String) (message_id : Int) :
    Bool × List (String × GroupChatModel) :=
  let chat_info := (get_group_chat chats chat_id).dump
  let chat_info :=
    alistSet chat_info "pinned_schedule_message_id" (PyValue.int message_id)
  update_group_chat chats chat_id chat_info

/-- One pending `JobQueue` deletion entry of handlers/utils.py. -/
structure PendingJob where
  name : String
  fire_time : Nat
  chat_id : String
  message_id : Nat
  deriving DecidableEq

/-- The job name `delete_{chat_id}_{message_id}` of
`schedule_message_deletion`. -/
def deletion_job_name (chat_id : String) (message_id : Nat) : String :=
  "delete_" ++ chat_id ++ "_" ++ toString message_id

/-- `schedule_message_deletion` (handlers/utils.py lines 75-100): remove
every queued job carrying the same name, then `run_once` a fresh job firing
`delay` seconds from now. -/
def schedule_message_deletion (queue : List PendingJob) (chat_id : String)
    (message_id : Nat) (now delay : Nat) : List PendingJob :=
  let n := deletion_job_name chat_id message_id
  (queue.filter (fun j => j.name ≠ n)) ++
    [⟨n, now + delay, chat_id, message_id⟩]

/-- A stored user who, per the design, should be reachable by the reminder
and next-lesson campaigns: bound to group G1, everything else default. -/
def userStoreBlocked : List (String × UserModel) :=
  [("7", { group := Option.some "G1" })]

/-- The model stored for user 7 after the (charitably keyword-read)
deactivation update `update_user("7", active=False)` at time 100: the
unknown `active` key is dropped by validation, only `last_activity` moves. -/
def userAfterDeactivation : UserModel :=
  { group := Option.some "G1", last_activity := Option.some 100 }

/-- The model stored after `update_user("1")` with no keyword fields at time
5: a default user with `last_activity` stamped. -/
def userFreshStamped : UserModel :=
  { last_activity := Option.some 5 }

instance lessonPairLeTotal :
    IsTotal LessonModel (fun a b => a.pair ≤ b.pair) :=
  ⟨fun a b => Nat.le_total a.pair b.pair⟩

instance lessonPairLeTrans :
    IsTrans LessonModel (fun a b => a.pair ≤ b.pair) :=
  ⟨fun _ _ _ => Nat.le_trans⟩

/- ------------------------------------------------------------------ -/
/- Theorems                                                           -/
/- ------------------------------------------------------------------ -/

/-- Setting a key makes it the value found by lookup. -/
theorem alistGet?_set_self {α : Type} (d : List (String × α)) (k : String)
    (v : α) : alistGet? (alistSet d k v) k = Option.some v := by
  induction d with
  | nil => simp [alistSet, alistGet?]
  | cons p rest ih =>
      obtain ⟨k', v'⟩ := p
      by_cases h : k' = k
      · simp [alistSet, alistGet?, h]
      · simp [alistSet, alistGet?, h, ih]

/-- A successfully validated user carries exactly the `last_activity` value
present in the validated dict. -/
theorem model_validate_ok_last_activity (d : List (String × PyValue))
    (u : UserModel) (h : UserModel.model_validate d = Except.ok u) :
    parseDtField (alistGet? d "last_activity") = Except.ok u.last_activity := by
  unfold UserModel.model_validate at h
  split at h
  · rename_i g rt re nl nt rd la hg hrt hre hnl hnt hrd hla
    injection h with h'
    subst h'
    exact hla
  · simp at h

/-- C1: the personal daily reminder campaign is claimed to select exactly the
active profiles with the reminder flag on, the matching HH:MM string and a
group; in the code the selection tests the key `daily_reminder`, which a
`UserModel.model_dump()` never contains (the declared flag is
`reminder_enabled`), so the campaign selects nobody — for every user store
and every clock minute the selection is empty, including the Scenario B
profile at its configured time. -/
theorem daily_reminder_selection_always_empty
    (users : List (String × UserModel)) (current_time : String) :
    get_users_for_daily_reminder users current_time = [] := by
  unfold get_users_for_daily_reminder get_all_users_data
  rw [List.filter_eq_nil_iff]
  intro p hp
  obtain ⟨q, hq, rfl⟩ := List.mem_map.1 hp
  rw [show daily_reminder_filter current_time q.2.dump = false from rfl]
  exact Bool.false_ne_true

/-- C2: a blocked recipient is claimed to be marked inactive and excluded
from all campaigns; in the code `UserModel` has no `active` field, so every
dumped user answers `active = True` to the campaign filters, and even the
charitably keyword-read deactivation `update_user(user_id, active=False)`
drops the unknown key at validation: after it the stored user still passes
the next-lesson campaign filter.  (The literal call
`update_user(user_id, {"active": False})` passes the dict positionally into
a keywords-only parameter and raises TypeError, so even this much never
runs.) -/
theorem blocked_user_never_deactivated :
    (∀ u : UserModel,
        dictGet u.dump "active" (PyValue.bool true) = PyValue.bool true) ∧
    update_user ⟨userStoreBlocked, userStoreBlocked⟩ "7"
        [("active", PyValue.bool false)] 100 =
      (true, ⟨[("7", userAfterDeactivation)], [("7", userAfterDeactivation)]⟩) ∧
    next_lesson_filter userAfterDeactivation.dump = true := by
  exact ⟨fun u => rfl, rfl, rfl⟩

/-- C3: the morning digest is claimed to persist the new message id into the
chat binding exactly when send and pin both succeed; in the code
`GroupChatModel` has no `pinned_schedule_message_id` field, so no stored
binding ever holds one, and even the charitably keyword-read persistence
step leaves the stored binding without it (the literal call
`update_group_chat(chat_id, chat_info)` raises TypeError besides).  The
half "pin fails implies the stored id is unchanged" holds vacuously; the
half "send+pin succeed implies the id is written" is false. -/
theorem pinned_message_id_never_persisted :
    (∀ gc : GroupChatModel,
        alistGet? gc.dump "pinned_schedule_message_id" = Option.none) ∧
    (∀ (chats : List (String × GroupChatModel)) (chat_id : String)
        (message_id : Int),
        alistGet?
          (get_group_chat
            (send_schedule_message_persist chats chat_id message_id).2
            chat_id).dump
          "pinned_schedule_message_id" = Option.none) :=
  ⟨fun _ => rfl, fun _ _ _ => rfl⟩

/-- C4 counterexample: the read accessors are claimed never to signal an
error and to return the default entity for absent keys; looking up an
unknown user id through `ScheduleService.get_user_group` dereferences the
None returned by `get_user` and raises AttributeError, and `get_user` itself
returns None, not a default `UserModel`. -/
theorem unknown_user_lookup_raises :
    get_user_group [] [] "42" Option.none = Except.error "AttributeError" ∧
    get_user [] "42" = Option.none :=
  ⟨rfl, rfl⟩

/-- C4 (amended): for an absent chat id `get_group_chat` returns the
default-constructed binding; for an absent user id `get_user` returns None
(its documented default) rather than a default entity, and
`ScheduleService.get_user_group` raises AttributeError when no chat-level
group applies. -/
theorem store_read_absent_key_behaviour
    (users : List (String × UserModel))
    (chats : List (String × GroupChatModel)) (user_id chat_id : String)
    (hu : alistGet? users user_id = Option.none)
    (hc : alistGet? chats chat_id = Option.none) :
    get_user users user_id = Option.none ∧
    get_group_chat chats chat_id = ({} : GroupChatModel) ∧
    get_user_group users chats user_id Option.none =
      Except.error "AttributeError" := by
  refine ⟨hu, ?_, ?_⟩
  · unfold get_group_chat
    rw [hc]
    rfl
  · unfold get_user_group get_user
    rw [hu]

/-- Witness for the amended C4 statement on the empty store. -/
theorem store_read_absent_key_behaviour_witness :
    alistGet? ([] : List (String × UserModel)) "42" = Option.none ∧
    alistGet? ([] : List (String × GroupChatModel)) "9" = Option.none ∧
    (get_user [] "42" = Option.none ∧
     get_group_chat [] "9" = ({} : GroupChatModel) ∧
     get_user_group [] [] "42" Option.none =
       Except.error "AttributeError") :=
  ⟨rfl, rfl, store_read_absent_key_behaviour [] [] "42" "9" rfl rfl⟩

/-- C6: an update whose merged result fails the user-profile validation
(e.g. a malformed HH:MM reminder time) reports failure and leaves both the
in-memory collection and the durable file exactly as they were. -/
theorem invalid_user_update_rejected (st : UsersState) (user_id : String)
    (kwargs : List (String × PyValue)) (now : Int)
    (h : UserModel.model_validate (merged_user_update st user_id kwargs now) =
      Except.error "ValidationError") :
    update_user st user_id kwargs now = (false, st) := by
  unfold update_user
  rw [h]

/-- Witness for C6: the update `reminder_time := "25:00"` on the empty store
is rejected and changes nothing. -/
theorem invalid_user_update_rejected_witness :
    UserModel.model_validate
        (merged_user_update ⟨[], []⟩ "1"
          [("reminder_time", PyValue.str "25:00")] 0) =
      Except.error "ValidationError" ∧
    update_user ⟨[], []⟩ "1" [("reminder_time", PyValue.str "25:00")] 0 =
      (false, ⟨[], []⟩) :=
  ⟨rfl, invalid_user_update_rejected ⟨[], []⟩ "1" _ 0 rfl⟩

/-- C7: `get_day_lessons` returns a list sorted ascending by pair number
that holds exactly the lessons of the group and weekday whose parity-week
list contains the requested week (so a lesson on weeks 1 and 2 is never
returned for week 3). -/
theorem get_day_lessons_spec (sd : ScheduleDataModel) (group day : String)
    (week : Nat) :
    (get_day_lessons sd group day week).Sorted (fun a b => a.pair ≤ b.pair) ∧
    (get_day_lessons sd group day week).Perm
      ((dm_get_day_lessons sd group day).filter
        (fun l => l.weeks.contains week)) ∧
    (∀ l : LessonModel,
        l ∈ get_day_lessons sd group day week ↔
          l ∈ dm_get_day_lessons sd group day ∧ week ∈ l.weeks) := by
  refine ⟨List.sorted_insertionSort _ _, List.perm_insertionSort _ _, ?_⟩
  intro l
  unfold get_day_lessons
  rw [List.mem_insertionSort, List.mem_filter]
  exact and_congr Iff.rfl List.elem_iff

/-- C8: with a configured semester start the current parity week is the
documented floor-division formula, has period 14 days and only takes the
values 1 and 2; without a configured start it is 1 (and the embedding is a
total function, so no error is possible). -/
theorem get_current_week_spec (s d : Int) :
    get_current_week (Option.some s) d = ((d - s).fdiv 7) % 2 + 1 ∧
    get_current_week (Option.some s) (d + 14) =
      get_current_week (Option.some s) d ∧
    (get_current_week (Option.some s) d = 1 ∨
      get_current_week (Option.some s) d = 2) ∧
    get_current_week Option.none d = 1 := by
  refine ⟨rfl, ?_, ?_, rfl⟩
  · show ((d + 14 - s).fdiv 7) % 2 + 1 = ((d - s).fdiv 7) % 2 + 1
    rw [Int.fdiv_eq_ediv _ (by norm_num), Int.fdiv_eq_ediv _ (by norm_num)]
    omega
  · show ((d - s).fdiv 7) % 2 + 1 = 1 ∨ ((d - s).fdiv 7) % 2 + 1 = 2
    rcases Int.emod_two_eq ((d - s).fdiv 7) with h | h <;> rw [h] <;> simp

/-- C9: registering a deletion job removes every pending job with the same
`(chat id, message id)` name before queueing the new one, so after any
registration exactly one job for that identity is queued, firing at the
newly requested time; in particular re-registering before the first fires
leaves exactly one job, at the later registration's delay. -/
theorem deletion_job_unique (queue : List PendingJob) (chat_id : String)
    (message_id : Nat) (now delay now2 delay2 : Nat) :
    (schedule_message_deletion queue chat_id message_id now delay).filter
        (fun j => j.name = deletion_job_name chat_id message_id) =
      [⟨deletion_job_name chat_id message_id, now + delay, chat_id,
        message_id⟩] ∧
    (schedule_message_deletion
        (schedule_message_deletion queue chat_id message_id now delay)
        chat_id message_id now2 delay2).filter
        (fun j => j.name = deletion_job_name chat_id message_id) =
      [⟨deletion_job_name chat_id message_id, now2 + delay2, chat_id,
        message_id⟩] := by
  have key : ∀ (q : List PendingJob) (t dl : Nat),
      (schedule_message_deletion q chat_id message_id t dl).filter
          (fun j => j.name = deletion_job_name chat_id message_id) =
        [⟨deletion_job_name chat_id message_id, t + dl, chat_id,
          message_id⟩] := by
    intro q t dl
    unfold schedule_message_deletion
    rw [List.filter_append, List.filter_filter]
    have h1 : q.filter
        (fun a => decide (a.name = deletion_job_name chat_id message_id) &&
          decide ¬(a.name = deletion_job_name chat_id message_id)) = [] := by
      rw [List.filter_eq_nil_iff]
      intro a _
      by_cases h : a.name = deletion_job_name chat_id message_id <;> simp [h]
    rw [h1]
    simp [List.filter]
  exact ⟨key queue now delay, key _ now2 delay2⟩

/-- C5: when the day has no lessons the campaign is claimed to clear the
binding's stored pinned-message id; but `chat_info` is a
`GroupChatModel.model_dump()`, which never contains the key
`pinned_schedule_message_id`, so the guarded clear-and-save branch is never
taken: the dumped binding is returned untouched and the save call is never
reached, for every stored binding. -/
theorem no_lessons_never_clears_store (gc : GroupChatModel) :
    send_no_lessons_store_effect gc.dump = (gc.dump, false) :=
  rfl

/-- C10: every successful `update_user` stores a model whose
`last_activity` is the current timestamp, whatever the keyword fields
were (the stamp is written after the merge). -/
theorem update_user_stamps_last_activity (st st' : UsersState)
    (user_id : String) (kwargs : List (String × PyValue)) (now : Int)
    (h : update_user st user_id kwargs now = (true, st')) :
    ∃ u : UserModel, get_user st'.mem user_id = Option.some u ∧
      u.last_activity = Option.some now := by
  unfold update_user at h
  split at h
  · rename_i u hu
    have hst' : st' = ⟨alistSet st.mem user_id u, alistSet st.mem user_id u⟩ := by
      injection h with h1 h2
      exact h2.symm
    refine ⟨u, ?_, ?_⟩
    · rw [hst']
      exact alistGet?_set_self st.mem user_id u
    · have hla := model_validate_ok_last_activity _ u hu
      rw [merged_user_update, alistGet?_set_self] at hla
      injection hla.symm
  · simp at h

/-- Witness for C10: the empty keyword update at time 5 on the empty store
succeeds and stores `last_activity = 5`. -/
theorem update_user_stamps_last_activity_witness :
    update_user ⟨[], []⟩ "1" [] 5 =
      (true, ⟨[("1", userFreshStamped)], [("1", userFreshStamped)]⟩) ∧
    (∃ u : UserModel, get_user [("1", userFreshStamped)] "1" = Option.some u ∧
      u.last_activity = Option.some 5) :=
  ⟨rfl, update_user_stamps_last_activity ⟨[], []⟩
    ⟨[("1", userFreshStamped)], [("1", userFreshStamped)]⟩ "1" [] 5 rfl⟩

end Rozklad
